import Mathlib

/-!
Shallow embedding of the two FastAPI sidecar stub services of this
repository: variant 1 is `src/sidecar/server.py`, variant 2 is
`src/sidecar_py/main.py`.  Handlers are pure functions; the one source of
randomness (`random.uniform(0, 1)` in variant 2's `/predict`) is passed in
explicitly as the value `r` drawn from the underlying `random.random()`
source, whose contract is `0 ≤ r < 1`.  Python floats are modelled as
rationals: the only arithmetic performed on them (`0 + (1 - 0) * r`) is
exact in binary floating point, so the rational semantics coincides with
the float semantics on these programs.  Handler bodies contain no `raise`,
so every handler returns `Except.ok`; the imported `HTTPException` is the
error type a raising handler would produce.
-/

namespace AlgoTrader

/-- JSON values, modelling Python scalars and containers; feature values
are typed `Any` in the source, so any of these may appear. -/
inductive Json : Type where
  | null : Json
  | bool : Bool → Json
  | num : ℚ → Json
  | str : String → Json
  | arr : List Json → Json
  | obj : List (String × Json) → Json

/-- Error raised via `fastapi.HTTPException` (imported by both services,
raised by no handler).  A handler that raised would return `Except.error`
with this payload (status code and detail). -/
inductive HttpError : Type where
  | httpException : ℕ → String → HttpError
deriving DecidableEq

namespace Sidecar

/-- Request model `PredictRequest` of `src/sidecar/server.py`: a single
field `features : Dict[str, Any]`, embedded as an association list. -/
structure PredictRequest : Type where
  features : List (String × Json)

/-- Response model `PredictResponse` of `src/sidecar/server.py`: a single
field `signals : Dict[str, float]`. -/
structure PredictResponse : Type where
  signals : List (String × ℚ)
deriving DecidableEq

/-- Handler for `POST /predict` in `src/sidecar/server.py`: ignores the
request and returns the constant response `signals = {"score": 0.0}`. -/
def predict (req : PredictRequest) : Except HttpError PredictResponse :=
  Except.ok ⟨[(("score"), 0)]⟩

/-- Handler for `GET /healthz` in `src/sidecar/server.py`. -/
def healthz : Except HttpError (List (String × String)) :=
  Except.ok [(("status"), ("ok"))]

end Sidecar

namespace SidecarPy

/-- Request model `FeaturePayload` of `src/sidecar_py/main.py`: a single
field `features : Dict[str, Any]`, embedded as an association list. -/
structure FeaturePayload : Type where
  features : List (String × Json)

/-- Response model `PredictionResponse` of `src/sidecar_py/main.py`. -/
structure PredictionResponse : Type where
  success : Bool
  confidence : ℚ
  label : String
deriving DecidableEq

/-- Handler for `GET /ping` in `src/sidecar_py/main.py`. -/
def ping : Except HttpError (List (String × String)) :=
  Except.ok [(("status"), ("ok"))]

/-- Semantics of Python's `random.uniform(a, b)`: `a + (b - a) * random()`
where `r` is the value drawn from `random.random()`. -/
def uniform (a b r : ℚ) : ℚ := a + (b - a) * r

/-- Handler for `POST /predict` in `src/sidecar_py/main.py`:
`confidence = random.uniform(0, 1)`,
`label = "buy" if confidence > 0.5 else "sell"` (the float literal `0.5`
is exactly `1/2`), `success = True`.  The payload is not consulted. -/
def predict (payload : FeaturePayload) (r : ℚ) :
    Except HttpError PredictionResponse :=
  let confidence := uniform 0 1 r
  let label := if confidence > 1 / 2 then "buy" else "sell"
  Except.ok ⟨true, confidence, label⟩

/-- Response of the `/feature` handler as built on line 46 of
`src/sidecar_py/main.py`: `received = True` and
`num_features = len(payload.features)`. -/
structure FeatureResponse : Type where
  received : Bool
  num_features : ℕ
deriving DecidableEq

/-- Handler for `POST /feature` in `src/sidecar_py/main.py`. -/
def feature (payload : FeaturePayload) : Except HttpError FeatureResponse :=
  Except.ok ⟨true, payload.features.length⟩

end SidecarPy

/-- The deterministic labelling function implicit in variant 2's
`/predict`: threshold the confidence at `0.5`. -/
def labelOf (confidence : ℚ) : String :=
  if confidence > 1 / 2 then "buy" else "sell"

/-- The single framework-generated error kind: request-body validation
failure (the framework's 422-equivalent client error). -/
inductive ClientError : Type where
  | validationError : ClientError
deriving DecidableEq

/-- Modelled from the spec: the hosting framework's request-body
validation layer for the `features: Dict[str, Any]` request models
(`PredictRequest` and `FeaturePayload`), which is framework code and not
part of this repository's sources.  Per the spec, a body that is not
valid JSON (`none` here), or whose `features` field is missing or not a
mapping, fails with a validation error; otherwise the features mapping is
extracted.  No other validation is performed. -/
def parseFeatures (body : Option Json) :
    Except ClientError (List (String × Json)) :=
  match body with
  | some (Json.obj kvs) =>
      match kvs.lookup ("features") with
      | some (Json.obj fs) => Except.ok fs
      | _ => Except.error ClientError.validationError
  | _ => Except.error ClientError.validationError

/-- Outcome of one HTTP request: a typed success response, a client error
from the validation layer, or a server error (an exception escaping the
handler). -/
inductive Outcome (α : Type) : Type where
  | success : α → Outcome α
  | clientError : Outcome α
  | serverError : Outcome α

/-- Full request path for `POST /predict` in variant 2: validate the
body, then run the handler; a handler exception would be a server
error. -/
def servePredictPy (body : Option Json) (r : ℚ) :
    Outcome SidecarPy.PredictionResponse :=
  match parseFeatures body with
  | Except.error _ => Outcome.clientError
  | Except.ok fs =>
      match SidecarPy.predict ⟨fs⟩ r with
      | Except.ok resp => Outcome.success resp
      | Except.error _ => Outcome.serverError

/-- Full request path for `POST /feature` in variant 2. -/
def serveFeature (body : Option Json) : Outcome SidecarPy.FeatureResponse :=
  match parseFeatures body with
  | Except.error _ => Outcome.clientError
  | Except.ok fs =>
      match SidecarPy.feature ⟨fs⟩ with
      | Except.ok resp => Outcome.success resp
      | Except.error _ => Outcome.serverError

/-- Full request path for `POST /predict` in variant 1. -/
def servePredictV1 (body : Option Json) : Outcome Sidecar.PredictResponse :=
  match parseFeatures body with
  | Except.error _ => Outcome.clientError
  | Except.ok fs =>
      match Sidecar.predict ⟨fs⟩ with
      | Except.ok resp => Outcome.success resp
      | Except.error _ => Outcome.serverError

/-- Full request path for `GET /ping` (no body, no validation). -/
def servePing : Outcome (List (String × String)) :=
  match SidecarPy.ping with
  | Except.ok resp => Outcome.success resp
  | Except.error _ => Outcome.serverError

/-- Full request path for `GET /healthz` (no body, no validation). -/
def serveHealthz : Outcome (List (String × String)) :=
  match Sidecar.healthz with
  | Except.ok resp => Outcome.success resp
  | Except.error _ => Outcome.serverError

/-- C1: every valid `POST /feature` request with features mapping `m`
gets the response `received = true`, `num_features = ` number of keys of
`m`.  The keys of a Python dict are pairwise distinct (`Nodup`), so the
number of keys is the length of the deduplicated key list. -/
theorem feature_counts_keys (p : SidecarPy.FeaturePayload)
    (h : (p.features.map Prod.fst).Nodup) :
    SidecarPy.feature p =
      Except.ok ⟨true, ((p.features.map Prod.fst).dedup).length⟩ := by
  rw [List.dedup_eq_self.mpr h]
  simp [SidecarPy.feature]

/-- Witness for C1 at the spec's example shape `{"a": 1, "b": 2}`:
the key list is duplicate-free and `num_features = 2`. -/
theorem feature_counts_keys_witness :
    (([(("a"), Json.num 1), (("b"), Json.num 2)].map Prod.fst).Nodup) ∧
    SidecarPy.feature ⟨[(("a"), Json.num 1), (("b"), Json.num 2)]⟩ =
      Except.ok ⟨true, 2⟩ :=
  ⟨by decide, feature_counts_keys ⟨[(("a"), Json.num 1), (("b"), Json.num 2)]⟩ (by decide)⟩

/-- C2: `GET /healthz` (variant 1) and `GET /ping` (variant 2) both
succeed with body exactly `{"status": "ok"}`; the full request path has
no failure mode for them. -/
theorem healthz_ping_ok :
    Sidecar.healthz = Except.ok [(("status"), ("ok"))] ∧
    SidecarPy.ping = Except.ok [(("status"), ("ok"))] ∧
    serveHealthz = Outcome.success [(("status"), ("ok"))] ∧
    servePing = Outcome.success [(("status"), ("ok"))] :=
  ⟨rfl, rfl, rfl, rfl⟩

/-- C3: for every valid request and every value `r` the random source
may produce (`random.random()` yields `0 ≤ r < 1`), the confidence in
the variant-2 `/predict` response lies in `[0, 1)`. -/
theorem predict_confidence_bounds (p : SidecarPy.FeaturePayload) (r : ℚ)
    (h0 : 0 ≤ r) (h1 : r < 1) (resp : SidecarPy.PredictionResponse)
    (h : SidecarPy.predict p r = Except.ok resp) :
    0 ≤ resp.confidence ∧ resp.confidence < 1 := by
  simp only [SidecarPy.predict, SidecarPy.uniform, Except.ok.injEq] at h
  subst h
  constructor <;> simp <;> linarith

/-- Witness for C3 at `r = 1/2` and the empty feature mapping. -/
theorem predict_confidence_bounds_witness :
    (0 : ℚ) ≤ (⟨true, 1 / 2, ("sell")⟩ : SidecarPy.PredictionResponse).confidence ∧
    (⟨true, 1 / 2, ("sell")⟩ : SidecarPy.PredictionResponse).confidence < 1 :=
  predict_confidence_bounds ⟨[]⟩ (1 / 2) (by norm_num) (by norm_num)
    ⟨true, 1 / 2, ("sell")⟩ (by norm_num [SidecarPy.predict, SidecarPy.uniform])

/-- C4: in every variant-2 `/predict` response, the label is `"buy"`
exactly when the confidence is strictly greater than `0.5` and `"sell"`
otherwise (also at exactly `0.5`); it is the deterministic function
`labelOf` of the confidence alone. -/
theorem predict_label_threshold (p : SidecarPy.FeaturePayload) (r : ℚ)
    (resp : SidecarPy.PredictionResponse)
    (h : SidecarPy.predict p r = Except.ok resp) :
    resp.label = labelOf resp.confidence ∧
    (resp.label = "buy" ↔ 1 / 2 < resp.confidence) ∧
    (resp.label = "sell" ↔ resp.confidence ≤ 1 / 2) := by
  simp only [SidecarPy.predict, Except.ok.injEq] at h
  subst h
  by_cases hc : SidecarPy.uniform 0 1 r > 1 / 2 <;>
    simp [labelOf, hc, not_lt.mp, le_of_not_lt]

/-- Witness for C4 at `r = 3/4`, where the response label is `"buy"`. -/
theorem predict_label_threshold_witness :
    (⟨true, 3 / 4, ("buy")⟩ : SidecarPy.PredictionResponse).label =
      labelOf (⟨true, 3 / 4, ("buy")⟩ : SidecarPy.PredictionResponse).confidence ∧
    ((⟨true, 3 / 4, ("buy")⟩ : SidecarPy.PredictionResponse).label = "buy" ↔
      1 / 2 < (3 / 4 : ℚ)) ∧
    ((⟨true, 3 / 4, ("buy")⟩ : SidecarPy.PredictionResponse).label = "sell" ↔
      (3 / 4 : ℚ) ≤ 1 / 2) :=
  predict_label_threshold ⟨[]⟩ (3 / 4) ⟨true, 3 / 4, ("buy")⟩
    (by norm_num [SidecarPy.predict, SidecarPy.uniform])

/-- C5: the variant-1 `/predict` handler returns exactly
`{"signals": {"score": 0.0}}` for every request. -/
theorem predict_v1_constant (req : Sidecar.PredictRequest) :
    Sidecar.predict req = Except.ok ⟨[(("score"), 0)]⟩ := rfl

/-- C6: with the empty feature mapping, variant 1 returns its documented
constant response, the `/feature` endpoint returns count 0, and for every
admissible random value the variant-2 `/predict` response has the
documented shape: `success = true`, confidence in `[0, 1)`, label in
`{"buy", "sell"}`. -/
theorem predict_empty_features_ok :
    Sidecar.predict ⟨[]⟩ = Except.ok ⟨[(("score"), 0)]⟩ ∧
    SidecarPy.feature ⟨[]⟩ = Except.ok ⟨true, 0⟩ ∧
    ∀ r : ℚ, 0 ≤ r → r < 1 →
      ∃ resp, SidecarPy.predict ⟨[]⟩ r = Except.ok resp ∧
        resp.success = true ∧ 0 ≤ resp.confidence ∧ resp.confidence < 1 ∧
        (resp.label = "buy" ∨ resp.label = "sell") := by
  refine ⟨rfl, rfl, fun r h0 h1 => ⟨⟨true, SidecarPy.uniform 0 1 r,
    if SidecarPy.uniform 0 1 r > 1 / 2 then "buy" else "sell"⟩, rfl, rfl, ?_, ?_, ?_⟩⟩
  · simp [SidecarPy.uniform]; linarith
  · simp [SidecarPy.uniform]; linarith
  · by_cases hc : SidecarPy.uniform 0 1 r > 1 / 2
    · exact Or.inl (if_pos hc)
    · exact Or.inr (if_neg hc)

/-- Witness for C6 at `r = 1/3`. -/
theorem predict_empty_features_ok_witness :
    ∃ resp, SidecarPy.predict ⟨[]⟩ (1 / 3) = Except.ok resp ∧
      resp.success = true ∧ 0 ≤ resp.confidence ∧ resp.confidence < 1 ∧
      (resp.label = "buy" ∨ resp.label = "sell") :=
  predict_empty_features_ok.2.2 (1 / 3) (by norm_num) (by norm_num)

/-- C7: every request to any endpoint either succeeds with a typed
response or fails as the single client-error kind (request-body
validation failure); no request reaches the server-error outcome, and the
spec's malformed-body examples (features bound to a non-mapping, or the
features key missing) are client errors, not crashes. -/
theorem error_taxonomy (body : Option Json) (r : ℚ) :
    ((∃ resp, servePredictPy body r = Outcome.success resp) ∨
      servePredictPy body r = Outcome.clientError) ∧
    ((∃ resp, serveFeature body = Outcome.success resp) ∨
      serveFeature body = Outcome.clientError) ∧
    ((∃ resp, servePredictV1 body = Outcome.success resp) ∨
      servePredictV1 body = Outcome.clientError) ∧
    servePing = Outcome.success [(("status"), ("ok"))] ∧
    serveHealthz = Outcome.success [(("status"), ("ok"))] ∧
    servePredictPy (some (Json.obj [(("features"), Json.str ("not-a-mapping"))])) r =
      Outcome.clientError ∧
    servePredictPy (some (Json.obj [])) r = Outcome.clientError := by
  refine ⟨?_, ?_, ?_, rfl, rfl, rfl, rfl⟩ <;>
    rcases hp : parseFeatures body with e | fs <;>
      simp [servePredictPy, serveFeature, servePredictV1, hp,
        SidecarPy.predict, SidecarPy.feature, Sidecar.predict]

/-- C8: the variant-2 `/predict` response carries no information from the
input payload: with the same random value, any two payloads produce
identical responses. -/
theorem predict_ignores_payload (p₁ p₂ : SidecarPy.FeaturePayload) (r : ℚ) :
    SidecarPy.predict p₁ r = SidecarPy.predict p₂ r := rfl

/-- C9: on every schema-valid input, no handler of either service raises:
each returns `Except.ok` (never the imported `HTTPException`), and the
variant-2 `/predict` always reports `success = true`. -/
theorem handlers_never_raise (p : SidecarPy.FeaturePayload)
    (req : Sidecar.PredictRequest) (r : ℚ) :
    (∃ resp, SidecarPy.predict p r = Except.ok resp ∧ resp.success = true) ∧
    (∃ resp, SidecarPy.feature p = Except.ok resp) ∧
    Sidecar.predict req = Except.ok ⟨[(("score"), 0)]⟩ ∧
    SidecarPy.ping = Except.ok [(("status"), ("ok"))] ∧
    Sidecar.healthz = Except.ok [(("status"), ("ok"))] :=
  ⟨⟨⟨true, SidecarPy.uniform 0 1 r,
      if SidecarPy.uniform 0 1 r > 1 / 2 then "buy" else "sell"⟩, rfl, rfl⟩,
    ⟨⟨true, p.features.length⟩, rfl⟩, rfl, rfl, rfl⟩

/-- C10: the `/feature` response depends only on the number of keys of
the submitted mapping: payloads with equally many entries get identical
responses, whatever the key names and values. -/
theorem feature_depends_only_on_count (p₁ p₂ : SidecarPy.FeaturePayload)
    (h : p₁.features.length = p₂.features.length) :
    SidecarPy.feature p₁ = SidecarPy.feature p₂ := by
  simp [SidecarPy.feature, h]

/-- Witness for C10: two one-entry payloads with different keys and
values get the same response. -/
theorem feature_depends_only_on_count_witness :
    ([(("a"), Json.num 1)] : List (String × Json)).length =
      ([(("x"), Json.str ("v"))] : List (String × Json)).length ∧
    SidecarPy.feature ⟨[(("a"), Json.num 1)]⟩ =
      SidecarPy.feature ⟨[(("x"), Json.str ("v"))]⟩ :=
  ⟨rfl, feature_depends_only_on_count ⟨[(("a"), Json.num 1)]⟩
    ⟨[(("x"), Json.str ("v"))]⟩ rfl⟩

end AlgoTrader
